import Mathlib

/-!
Shallow embedding of the EBS-Home backend booking / auth / checklist core
(`src/backend/src` of the repository), with theorems checking the
natural-language specification against it.

Calendar dates are embedded as `Nat` day numbers (the Python code compares
`datetime.date` values, a linear order, and takes differences in days);
timestamps (`datetime.utcnow()`) are embedded as explicit `Nat` parameters
supplied by the caller.
-/

/-- Embedding of `models/booking.py` class `Booking` (the fields relevant to
the verified operations; `created_at` is never consulted by them). -/
structure Booking where
  id : String
  user_id : String
  user_name : String
  start_date : Nat
  end_date : Nat
  notes : String
  is_cancelled : Bool
  exit_checklist_completed : Bool
  exit_checklist_id : Option String
  reminder_sent : Bool
  updated_at : Nat
deriving DecidableEq, Repr

/-- Embedding of `Booking.overlaps_with` (models/booking.py lines 82-88):
returns `False` when either booking is cancelled, otherwise
`not (self.end_date < other.start_date or self.start_date > other.end_date)`. -/
def Booking.overlaps_with (b other_booking : Booking) : Bool :=
  if b.is_cancelled || other_booking.is_cancelled then
    false
  else
    !(decide (b.end_date < other_booking.start_date) ||
      decide (b.start_date > other_booking.end_date))

/-- The `TypeError` Python raises when the repository compares a
`datetime.date` to a `str` (booking_repository.py line 165). -/
inductive RepoError where
  | typeError
deriving DecidableEq, Repr

/-- Embedding of `BookingRepository.get_conflicting_bookings`
(repositories/booking_repository.py lines 138-168).  The Firestore
collection is embedded as a `List Booking` in the store's return order; the
query filters `is_cancelled == False` and optionally `id != exclude`.  The
loop body then evaluates `booking.start_date <= end_date`, where
`booking.start_date` is the `datetime.date` produced by `Booking.from_dict`
while `end_date` is the `str` parameter (the annotated type, and what the
only caller passes: `isoformat()` strings, booking_service.py lines 79-82).
In Python 3 that comparison raises `TypeError`, so the call aborts at the
first streamed document — the date parameters are never meaningfully
consulted and no non-empty conflict list is ever returned.  Only when no
document passes the filters does the loop complete, returning `[]`. -/
def get_conflicting_bookings (store : List Booking)
    (_start_date _end_date : String) (exclude_booking_id : Option String) :
    Except RepoError (List Booking) :=
  let activeQuery := store.filter (fun b => !b.is_cancelled)
  let query :=
    match exclude_booking_id with
    | some ex => activeQuery.filter (fun (b : Booking) => b.id != ex)
    | none => activeQuery
  if query = [] then .ok [] else .error .typeError

/-- The named violations of `validate_date_range` (utils/validators.py raises
`ValidationError` with one of three distinct messages; the spec names them
`InvalidRange`, `PastDate`, `RangeTooLong`). -/
inductive DateRangeViolation where
  | InvalidRange
  | PastDate
  | RangeTooLong
deriving DecidableEq, Repr

/-- Embedding of `validate_date_range` (utils/validators.py lines 23-38).
`today` (`date.today()` in the source) and `max_days` (default 30 in the
source) are explicit parameters.  The three checks run in source order:
`start_date >= end_date`, then `start_date < today`, then
`(end_date - start_date).days > max_days`; on success the function
returns `True`. -/
def validate_date_range (today start_date end_date max_days : Nat) :
    Except DateRangeViolation Bool :=
  if start_date ≥ end_date then
    .error .InvalidRange
  else if start_date < today then
    .error .PastDate
  else if end_date - start_date > max_days then
    .error .RangeTooLong
  else
    .ok true

/-- C1 (code bug evidence): the pairwise conflict check
`Booking.overlaps_with` implements exactly the claimed rule — a conflict
iff neither booking is cancelled and the inclusive spans intersect
(`s1 ≤ e2 ∧ s2 ≤ e1`) — but the repository conflict query cannot report
it: with any non-cancelled booking in the store it raises the date-vs-str
`TypeError` instead of returning a list, and the only list it ever returns
is the empty one — so in particular a cancelled reservation is never
reported as conflicting. -/
theorem overlaps_with_iff_and_conflict_query_raises
    (b other : Booking) (store : List Booking) (qs qe : String)
    (ex : Option String) :
    (b.overlaps_with other = true ↔
      b.is_cancelled = false ∧ other.is_cancelled = false ∧
      b.start_date ≤ other.end_date ∧ other.start_date ≤ b.end_date)
    ∧ (get_conflicting_bookings store qs qe none = .error .typeError ↔
        ∃ x ∈ store, x.is_cancelled = false)
    ∧ (get_conflicting_bookings store qs qe ex = .ok [] ∨
        get_conflicting_bookings store qs qe ex = .error .typeError) := by
  refine ⟨?_, ?_, ?_⟩
  · cases hb : b.is_cancelled <;> cases ho : other.is_cancelled <;>
      simp [Booking.overlaps_with, hb, ho] <;> omega
  · have key : get_conflicting_bookings store qs qe none =
        (if store.filter (fun x => !x.is_cancelled) = [] then .ok []
         else .error .typeError) := rfl
    rw [key]
    by_cases hq : store.filter (fun x => !x.is_cancelled) = []
    · rw [if_pos hq]
      constructor
      · intro h; exact absurd h (by simp)
      · rintro ⟨x, hx, hxc⟩
        have hmem : x ∈ store.filter (fun y => !y.is_cancelled) :=
          List.mem_filter.mpr ⟨hx, by simp [hxc]⟩
        rw [hq] at hmem
        exact absurd hmem (List.not_mem_nil x)
    · rw [if_neg hq]
      obtain ⟨x, hx⟩ := List.exists_mem_of_ne_nil _ hq
      have hx' := List.mem_filter.mp hx
      constructor
      · intro _
        exact ⟨x, hx'.1, by simpa using hx'.2⟩
      · intro _; rfl
  · cases ex with
    | none =>
        have key : get_conflicting_bookings store qs qe none =
            (if store.filter (fun x => !x.is_cancelled) = [] then .ok []
             else .error .typeError) := rfl
        rw [key]
        by_cases hq : store.filter (fun x => !x.is_cancelled) = []
        · exact Or.inl (by rw [if_pos hq])
        · exact Or.inr (by rw [if_neg hq])
    | some exid =>
        have key : get_conflicting_bookings store qs qe (some exid) =
            (if (store.filter (fun x => !x.is_cancelled)).filter
                (fun x => x.id != exid) = [] then .ok []
             else .error .typeError) := rfl
        rw [key]
        by_cases hq : (store.filter (fun x => !x.is_cancelled)).filter
            (fun x => x.id != exid) = []
        · exact Or.inl (by rw [if_pos hq])
        · exact Or.inr (by rw [if_neg hq])

/-- C2: `validate_date_range` succeeds exactly on ranges with
`start < end`, `start ≥ today` and `end - start ≤ max_days`, and otherwise
fails with the specific violation: `InvalidRange` iff `start ≥ end`;
`PastDate` iff `start < end` but `start < today`; `RangeTooLong` iff
`start < end`, `start ≥ today` and `end - start > max_days`. -/
theorem validate_date_range_spec (today s e m : Nat) :
    (validate_date_range today s e m = .ok true ↔
      s < e ∧ today ≤ s ∧ e - s ≤ m)
    ∧ (validate_date_range today s e m = .error .InvalidRange ↔ e ≤ s)
    ∧ (validate_date_range today s e m = .error .PastDate ↔
      s < e ∧ s < today)
    ∧ (validate_date_range today s e m = .error .RangeTooLong ↔
      s < e ∧ today ≤ s ∧ m < e - s) := by
  unfold validate_date_range
  refine ⟨?_, ?_, ?_, ?_⟩ <;> split_ifs with h1 h2 h3 <;> simp <;> omega

/-- Embedding of `models/user.py` class `UserDevice` (timestamps as `Nat`). -/
structure UserDevice where
  device_id : String
  device_name : String
  platform : String
  last_login : Nat
  is_active : Bool
deriving DecidableEq, Repr

/-- Embedding of `models/user.py` class `User` (the fields relevant to device
handling). -/
structure User where
  id : String
  email : String
  name : String
  current_device : Option UserDevice
  device_history : List UserDevice
  updated_at : Nat
deriving DecidableEq, Repr

/-- Embedding of `User.can_login_from_device` (models/user.py lines 132-136):
`True` when no current device is bound, else equality of device ids. -/
def User.can_login_from_device (u : User) (device_id : String) : Bool :=
  match u.current_device with
  | none => true
  | some cd => cd.device_id == device_id

/-- Embedding of `AuthService.verify_device` (services/auth_service.py lines
43-63): returns `True` on first login (no current device), otherwise defers
to `can_login_from_device` (the failed case is additionally logged, which has
no effect on the returned value). -/
def verify_device (user : User) (device_id : String) : Bool :=
  match user.current_device with
  | none => true
  | some _ => user.can_login_from_device device_id

/-- Embedding of `User.set_device` (models/user.py lines 138-144): if a
current device exists, the source first sets `current_device.is_active =
False` and then appends that (mutated) record to `device_history`; the new
device becomes current and `updated_at` is stamped. -/
def User.set_device (u : User) (device : UserDevice) (now : Nat) : User :=
  match u.current_device with
  | none =>
      { u with current_device := some device, updated_at := now }
  | some current =>
      { u with
        device_history := u.device_history ++ [{ current with is_active := false }],
        current_device := some device,
        updated_at := now }

/-- C3: the single-device guard `verify_device` agrees with
`can_login_from_device` and authorizes a login iff the user has no current
device bound, or the presented device identifier equals the bound device's
identifier; hence a login from a different device is rejected. -/
theorem verify_device_authorizes_iff (u : User) (d : String) :
    verify_device u d = u.can_login_from_device d
    ∧ (verify_device u d = true ↔
        u.current_device = none ∨
        ∃ cd, u.current_device = some cd ∧ cd.device_id = d) := by
  cases h : u.current_device with
  | none => simp [verify_device, User.can_login_from_device, h]
  | some cd => simp [verify_device, User.can_login_from_device, h]

/-- A user with a bound, active device, used to exercise `set_device`. -/
def c5_old_device : UserDevice :=
  { device_id := "dev-old", device_name := "Old Phone", platform := "ios",
    last_login := 10, is_active := true }

/-- A fresh device presented at re-login. -/
def c5_new_device : UserDevice :=
  { device_id := "dev-new", device_name := "New Phone", platform := "android",
    last_login := 20, is_active := true }

/-- A user currently bound to `c5_old_device`, with empty device history. -/
def c5_user : User :=
  { id := "u1", email := "alice@example.com", name := "Alice",
    current_device := some c5_old_device, device_history := [],
    updated_at := 0 }

/-- C5 counterexample: rebinding does NOT append the superseded current
device record unmodified — the appended history entry has `is_active`
flipped to `false`, so it differs from the record that was current. -/
theorem set_device_superseded_record_is_modified :
    (c5_user.set_device c5_new_device 20).device_history ≠
      c5_user.device_history ++ [c5_old_device]
    ∧ (c5_user.set_device c5_new_device 20).device_history =
      [{ c5_old_device with is_active := false }] := by
  decide

/-- C5 amended: when a current device exists, `set_device` appends exactly
one history entry — the superseded device record with `is_active` set to
`false` and all other fields unchanged — at the end of the existing history
(no reordering or deduplication), and the new device becomes current. -/
theorem set_device_pushes_deactivated_record (u : User) (cd dev : UserDevice)
    (now : Nat) (h : u.current_device = some cd) :
    (u.set_device dev now).device_history =
      u.device_history ++ [{ cd with is_active := false }]
    ∧ (u.set_device dev now).current_device = some dev := by
  simp [User.set_device, h]

/-- Witness for the amended C5 theorem at a concrete user. -/
theorem set_device_pushes_deactivated_record_witness :
    (c5_user.set_device c5_new_device 20).device_history =
      c5_user.device_history ++ [{ c5_old_device with is_active := false }]
    ∧ (c5_user.set_device c5_new_device 20).current_device =
      some c5_new_device :=
  set_device_pushes_deactivated_record c5_user c5_old_device c5_new_device 20 rfl

/-- Embedding of `models/checklist.py` enum `PhotoType`. -/
inductive PhotoType where
  | refrigerator
  | freezer
  | closet
  | general
deriving DecidableEq, Repr

/-- Embedding of `models/checklist.py` class `ChecklistPhoto` (an entry:
category tag, free-text notes — `None` notes are embedded as `""`, matching
Python truthiness — optional photo URL, order). -/
structure ChecklistPhoto where
  photo_type : PhotoType
  notes : String
  photo_url : Option String
  order : Nat
deriving DecidableEq, Repr

/-- Drops leading whitespace characters from a character list. -/
def dropWhitespaceLeft : List Char → List Char
  | [] => []
  | ch :: rest => if ch.isWhitespace then dropWhitespaceLeft rest else ch :: rest

/-- Embedding of Python `str.strip()`: removes leading and trailing
whitespace. -/
def strip_chars (l : List Char) : List Char :=
  ((dropWhitespaceLeft ((dropWhitespaceLeft l).reverse)).reverse)

/-- Length of a string after stripping surrounding whitespace
(`len(s.strip())` in the source). -/
def strip_len (s : String) : Nat :=
  (strip_chars s.data).length

/-- The named violations of `ExitChecklist.validate` (models/checklist.py
raises `ValueError` with a message naming the offending category; the spec
calls the condition `IncompleteCategory`, split here into its two message
forms). -/
inductive ChecklistViolation where
  | shortNotes (category : PhotoType)
  | missingCategory (category : PhotoType)
deriving DecidableEq, Repr

/-- Embedding of `ExitChecklist.REQUIRED_CATEGORIES`. -/
def REQUIRED_CATEGORIES : List PhotoType :=
  [PhotoType.refrigerator, PhotoType.freezer, PhotoType.closet]

/-- Embedding of the entry loop of `ExitChecklist.validate`
(models/checklist.py lines 143-155), which builds the
`categories_with_entries` set: a general entry is added when its notes are
non-empty after stripping (and never raises); a required-category entry with
`not entry.notes or len(entry.notes.strip()) < 5` raises naming its
category, otherwise its category is added.  The set is embedded as a list
(membership is all that is consulted). -/
def categories_with_entries :
    List ChecklistPhoto → Except ChecklistViolation (List PhotoType)
  | [] => .ok []
  | entry :: rest =>
    if entry.photo_type = PhotoType.general then
      match categories_with_entries rest with
      | .error v => .error v
      | .ok cats =>
          if entry.notes ≠ "" ∧ 0 < strip_len entry.notes then
            .ok (entry.photo_type :: cats)
          else
            .ok cats
    else
      if entry.notes = "" ∨ strip_len entry.notes < 5 then
        .error (.shortNotes entry.photo_type)
      else
        match categories_with_entries rest with
        | .error v => .error v
        | .ok cats => .ok (entry.photo_type :: cats)

/-- Embedding of the required-category presence loop of
`ExitChecklist.validate` (models/checklist.py lines 158-164). -/
def check_required_categories (cats : List PhotoType) :
    List PhotoType → Except ChecklistViolation Bool
  | [] => .ok true
  | c :: rest =>
    if c ∈ cats then check_required_categories cats rest
    else .error (.missingCategory c)

/-- Embedding of `models/checklist.py` class `ExitChecklist` (the fields
relevant to validation and submission; the entry list keeps its source
name `photos`). -/
structure ExitChecklist where
  id : String
  user_id : String
  user_name : String
  booking_id : String
  photos : List ChecklistPhoto
  is_complete : Bool
  submitted_at : Option Nat
  important_notes : Option String
  updated_at : Nat
deriving DecidableEq, Repr

/-- Embedding of `ExitChecklist.validate` (models/checklist.py lines
130-166): empty entry lists are valid ("not yet ready to validate"),
otherwise the entry loop runs and then every required category must be
present. -/
def ExitChecklist.validate (c : ExitChecklist) : Except ChecklistViolation Bool :=
  if c.photos = [] then .ok true
  else
    match categories_with_entries c.photos with
    | .error v => .error v
    | .ok cats => check_required_categories cats REQUIRED_CATEGORIES

/-- Embedding of `ExitChecklist.submit` (models/checklist.py lines 168-176):
on successful validation, sets `is_complete` and stamps `submitted_at`
(`now` embeds `datetime.utcnow()`); a validation error propagates. -/
def ExitChecklist.submit (c : ExitChecklist) (now : Nat) :
    Except ChecklistViolation ExitChecklist :=
  match c.validate with
  | .error v => .error v
  | .ok _ =>
      .ok { c with is_complete := true, submitted_at := some now,
                   updated_at := now }

/-- Stripping the empty string yields length zero. -/
lemma strip_len_empty : strip_len "" = 0 := rfl

/-- The source's failure condition for a required-category entry
(`not entry.notes or len(strip) < 5`) is equivalent to the spec's
"notes of length < 5 after trimming". -/
lemma bad_notes_iff (n : String) :
    (n = "" ∨ strip_len n < 5) ↔ strip_len n < 5 := by
  constructor
  · rintro (rfl | h)
    · simp [strip_len_empty]
    · exact h
  · exact Or.inr

/-- The entry loop succeeds iff every required-category entry has
acceptable notes. -/
lemma categories_with_entries_ok_iff (entries : List ChecklistPhoto) :
    (∃ cats, categories_with_entries entries = .ok cats) ↔
    ∀ e ∈ entries, e.photo_type ≠ PhotoType.general →
      ¬(e.notes = "" ∨ strip_len e.notes < 5) := by
  induction entries with
  | nil => simp [categories_with_entries]
  | cons a rest ih =>
    by_cases hg : a.photo_type = PhotoType.general
    · cases hrec : categories_with_entries rest with
      | error v =>
          simp only [categories_with_entries, hg, if_true, hrec]
          constructor
          · rintro ⟨cats, hcats⟩; exact absurd hcats (by simp)
          · intro hall
            have := (ih.mpr (fun e he hne => hall e (List.mem_cons_of_mem a he) hne))
            rw [hrec] at this
            exact absurd this (by rintro ⟨cats, h⟩; exact absurd h (by simp))
      | ok cats =>
          simp only [categories_with_entries, hg, if_true, hrec]
          constructor
          · intro _ e he hne
            rcases List.mem_cons.mp he with rfl | hmem
            · exact absurd hg hne
            · exact (ih.mp ⟨cats, hrec⟩) e hmem hne
          · intro _
            by_cases hn : a.notes ≠ "" ∧ 0 < strip_len a.notes
            · exact ⟨a.photo_type :: cats, by simp [hn, hg]⟩
            · exact ⟨cats, by simp [hn]⟩
    · by_cases hbad : a.notes = "" ∨ strip_len a.notes < 5
      · simp only [categories_with_entries, hg, if_false, hbad, if_true]
        constructor
        · rintro ⟨cats, hcats⟩; exact absurd hcats (by simp)
        · intro hall
          exact absurd hbad (hall a (List.mem_cons_self a rest) hg)
      · cases hrec : categories_with_entries rest with
        | error v =>
            simp only [categories_with_entries, hg, if_false, hbad, hrec]
            constructor
            · rintro ⟨cats, hcats⟩; exact absurd hcats (by simp)
            · intro hall
              have := (ih.mpr (fun e he hne => hall e (List.mem_cons_of_mem a he) hne))
              rw [hrec] at this
              exact absurd this (by rintro ⟨cats, h⟩; exact absurd h (by simp))
        | ok cats =>
            simp only [categories_with_entries, hg, if_false, hbad, hrec]
            constructor
            · intro _ e he hne
              rcases List.mem_cons.mp he with rfl | hmem
              · exact hbad
              · exact (ih.mp ⟨cats, hrec⟩) e hmem hne
            · intro _; exact ⟨a.photo_type :: cats, rfl⟩

/-- When the entry loop succeeds, a non-general category is in the
collected set iff some entry carries it. -/
lemma categories_with_entries_mem (entries : List ChecklistPhoto)
    (cats : List PhotoType)
    (h : categories_with_entries entries = .ok cats)
    (c : PhotoType) (hc : c ≠ PhotoType.general) :
    c ∈ cats ↔ ∃ e ∈ entries, e.photo_type = c := by
  induction entries generalizing cats with
  | nil =>
      simp only [categories_with_entries] at h
      cases h
      simp
  | cons a rest ih =>
    by_cases hg : a.photo_type = PhotoType.general
    · cases hrec : categories_with_entries rest with
      | error v => simp [categories_with_entries, hg, hrec] at h
      | ok cats0 =>
          simp only [categories_with_entries, hg, if_true, hrec] at h
          by_cases hn : a.notes ≠ "" ∧ 0 < strip_len a.notes
          · rw [if_pos hn] at h
            cases h
            rw [List.mem_cons]
            constructor
            · rintro (rfl | hmem)
              · exact absurd rfl hc
              · rcases (ih cats0 hrec).mp hmem with ⟨e, he, hpe⟩
                exact ⟨e, List.mem_cons_of_mem a he, hpe⟩
            · rintro ⟨e, he, hpe⟩
              rcases List.mem_cons.mp he with rfl | hmem
              · exact absurd (hpe ▸ hg) hc
              · exact Or.inr ((ih cats0 hrec).mpr ⟨e, hmem, hpe⟩)
          · rw [if_neg hn] at h
            cases h
            rw [ih cats hrec]
            constructor
            · rintro ⟨e, he, hpe⟩
              exact ⟨e, List.mem_cons_of_mem a he, hpe⟩
            · rintro ⟨e, he, hpe⟩
              rcases List.mem_cons.mp he with rfl | hmem
              · exact absurd (hpe ▸ hg) hc
              · exact ⟨e, hmem, hpe⟩
    · by_cases hbad : a.notes = "" ∨ strip_len a.notes < 5
      · simp [categories_with_entries, hg, hbad] at h
      · cases hrec : categories_with_entries rest with
        | error v => simp [categories_with_entries, hg, hbad, hrec] at h
        | ok cats0 =>
            simp only [categories_with_entries, hg, if_false, hbad, hrec,
              if_neg] at h
            cases h
            rw [List.mem_cons]
            constructor
            · rintro (rfl | hmem)
              · exact ⟨a, List.mem_cons_self a rest, rfl⟩
              · rcases (ih cats0 hrec).mp hmem with ⟨e, he, hpe⟩
                exact ⟨e, List.mem_cons_of_mem a he, hpe⟩
            · rintro ⟨e, he, hpe⟩
              rcases List.mem_cons.mp he with rfl | hmem
              · exact Or.inl hpe.symm
              · exact Or.inr ((ih cats0 hrec).mpr ⟨e, hmem, hpe⟩)

/-- When the entry loop fails, the violation is a short-notes violation
naming the required category of some offending entry. -/
lemma categories_with_entries_error (entries : List ChecklistPhoto)
    (v : ChecklistViolation)
    (h : categories_with_entries entries = .error v) :
    ∃ cat, v = .shortNotes cat ∧ cat ≠ PhotoType.general ∧
      ∃ e ∈ entries, e.photo_type = cat ∧
        (e.notes = "" ∨ strip_len e.notes < 5) := by
  induction entries generalizing v with
  | nil => simp [categories_with_entries] at h
  | cons a rest ih =>
    by_cases hg : a.photo_type = PhotoType.general
    · cases hrec : categories_with_entries rest with
      | error v0 =>
          simp only [categories_with_entries, hg, if_true, hrec] at h
          cases h
          rcases ih _ hrec with ⟨cat, hv, hcg, e, he, hpe, hbad⟩
          exact ⟨cat, hv, hcg, e, List.mem_cons_of_mem a he, hpe, hbad⟩
      | ok cats0 =>
          simp only [categories_with_entries, hg, if_true, hrec] at h
          by_cases hn : a.notes ≠ "" ∧ 0 < strip_len a.notes
          · rw [if_pos hn] at h; cases h
          · rw [if_neg hn] at h; cases h
    · by_cases hbad : a.notes = "" ∨ strip_len a.notes < 5
      · simp only [categories_with_entries, hg, if_false, hbad, if_true] at h
        cases h
        exact ⟨a.photo_type, rfl, hg, a, List.mem_cons_self a rest, rfl, hbad⟩
      · cases hrec : categories_with_entries rest with
        | error v0 =>
            simp only [categories_with_entries, hg, if_false, hbad, hrec,
              if_neg] at h
            cases h
            rcases ih _ hrec with ⟨cat, hv, hcg, e, he, hpe, hbad0⟩
            exact ⟨cat, hv, hcg, e, List.mem_cons_of_mem a he, hpe, hbad0⟩
        | ok cats0 =>
            simp [categories_with_entries, hg, hbad, hrec] at h

/-- The required-category pass succeeds iff every listed category was
collected. -/
lemma check_required_categories_ok_iff (cats req : List PhotoType) :
    check_required_categories cats req = .ok true ↔ ∀ c ∈ req, c ∈ cats := by
  induction req with
  | nil => simp [check_required_categories]
  | cons c rest ih =>
    by_cases hc : c ∈ cats
    · simp [check_required_categories, hc, ih]
    · simp [check_required_categories, hc]

/-- A failure of the required-category pass names a listed category with no
collected entry. -/
lemma check_required_categories_error (cats req : List PhotoType)
    (v : ChecklistViolation)
    (h : check_required_categories cats req = .error v) :
    ∃ c ∈ req, v = .missingCategory c ∧ c ∉ cats := by
  induction req with
  | nil => simp [check_required_categories] at h
  | cons c rest ih =>
    by_cases hc : c ∈ cats
    · rw [check_required_categories, if_pos hc] at h
      rcases ih h with ⟨c0, hc0, hv, hnc⟩
      exact ⟨c0, List.mem_cons_of_mem c hc0, hv, hnc⟩
    · rw [check_required_categories, if_neg hc] at h
      cases h
      exact ⟨c, List.mem_cons_self c rest, rfl, hc⟩

/-- A category is required exactly when it is not the general category. -/
lemma mem_required_iff (c : PhotoType) :
    c ∈ REQUIRED_CATEGORIES ↔ c ≠ PhotoType.general := by
  cases c <;> decide

/-- Acceptable notes for a required category: not failing the source's
check, i.e. trimmed length at least 5. -/
lemma good_notes_iff (n : String) :
    ¬(n = "" ∨ strip_len n < 5) ↔ 5 ≤ strip_len n := by
  rw [bad_notes_iff]; omega

/-- C4: checklist validation succeeds on an empty entry list; on a non-empty
list it succeeds iff every required category (refrigerator, freezer, closet)
has at least one entry and every entry in a required (non-general) category
has notes of trimmed length ≥ 5; a short-notes violation names a required
category of an offending short entry, and a missing-category violation names
a required category with no entry at all.  General-category entries are never
named by a violation. -/
theorem exit_checklist_validate_spec (c : ExitChecklist) :
    (c.validate = .ok true ↔
      c.photos = [] ∨
      ((∀ cat ∈ REQUIRED_CATEGORIES, ∃ e ∈ c.photos, e.photo_type = cat) ∧
       ∀ e ∈ c.photos, e.photo_type ≠ PhotoType.general →
         5 ≤ strip_len e.notes))
    ∧ (∀ cat, c.validate = .error (.shortNotes cat) →
        cat ≠ PhotoType.general ∧
        ∃ e ∈ c.photos, e.photo_type = cat ∧ strip_len e.notes < 5)
    ∧ (∀ cat, c.validate = .error (.missingCategory cat) →
        cat ∈ REQUIRED_CATEGORIES ∧
        ∀ e ∈ c.photos, e.photo_type ≠ cat) := by
  by_cases hp : c.photos = []
  · refine ⟨by simp [ExitChecklist.validate, hp], ?_, ?_⟩
    · intro cat h; simp [ExitChecklist.validate, hp] at h
    · intro cat h; simp [ExitChecklist.validate, hp] at h
  · cases hcol : categories_with_entries c.photos with
    | error v =>
        have hval : c.validate = .error v := by
          rw [ExitChecklist.validate, if_neg hp, hcol]
        rcases categories_with_entries_error c.photos v hcol with
          ⟨cat0, hv0, hg0, e0, he0, hpe0, hbad0⟩
        refine ⟨?_, ?_, ?_⟩
        · rw [hval]
          constructor
          · intro h; exact absurd h (by simp)
          · rintro (h | ⟨_, hall2⟩)
            · exact absurd h hp
            · have hne : e0.photo_type ≠ PhotoType.general := by
                rw [hpe0]; exact hg0
              have h5 := hall2 e0 he0 hne
              have hlt := (bad_notes_iff e0.notes).mp hbad0
              omega
        · intro cat h
          rw [hval] at h
          injection h with h'
          have hceq : cat0 = cat := by
            have h2 := hv0.symm.trans h'
            injection h2
          subst hceq
          exact ⟨hg0, e0, he0, hpe0, (bad_notes_iff e0.notes).mp hbad0⟩
        · intro cat h
          rw [hval] at h
          injection h with h'
          rw [hv0] at h'
          exact absurd h' (by simp)
    | ok cats =>
        have hval : c.validate =
            check_required_categories cats REQUIRED_CATEGORIES := by
          rw [ExitChecklist.validate, if_neg hp, hcol]
        have hgood := (categories_with_entries_ok_iff c.photos).mp ⟨cats, hcol⟩
        refine ⟨?_, ?_, ?_⟩
        · rw [hval, check_required_categories_ok_iff]
          constructor
          · intro hall
            refine Or.inr ⟨?_, ?_⟩
            · intro cat hcat
              exact (categories_with_entries_mem c.photos cats hcol cat
                ((mem_required_iff cat).mp hcat)).mp (hall cat hcat)
            · intro e he hne
              exact (good_notes_iff e.notes).mp (hgood e he hne)
          · rintro (h | ⟨hall1, _⟩)
            · exact absurd h hp
            · intro cat hcat
              exact (categories_with_entries_mem c.photos cats hcol cat
                ((mem_required_iff cat).mp hcat)).mpr (hall1 cat hcat)
        · intro cat h
          rw [hval] at h
          rcases check_required_categories_error cats REQUIRED_CATEGORIES _ h
            with ⟨c0, _, hv', _⟩
          exact absurd hv' (by simp)
        · intro cat h
          rw [hval] at h
          rcases check_required_categories_error cats REQUIRED_CATEGORIES _ h
            with ⟨c0, hc0mem, hv', hc0no⟩
          have hceq : cat = c0 := by injection hv'
          subst hceq
          refine ⟨hc0mem, ?_⟩
          intro e he hpe
          exact hc0no ((categories_with_entries_mem c.photos cats hcol cat
            ((mem_required_iff cat).mp hc0mem)).mpr ⟨e, he, hpe⟩)

/-- A checklist whose only refrigerator entry has 2-character notes. -/
def c4_short_checklist : ExitChecklist :=
  { id := "cl1", user_id := "u1", user_name := "Alice", booking_id := "b1",
    photos := [{ photo_type := PhotoType.refrigerator, notes := "ok",
                 photo_url := none, order := 1 }],
    is_complete := false, submitted_at := none, important_notes := none,
    updated_at := 0 }

/-- A checklist covering refrigerator and freezer but not closet. -/
def c4_missing_checklist : ExitChecklist :=
  { id := "cl2", user_id := "u1", user_name := "Alice", booking_id := "b1",
    photos := [{ photo_type := PhotoType.refrigerator,
                 notes := "clean and tidy", photo_url := none, order := 1 },
               { photo_type := PhotoType.freezer,
                 notes := "fully defrosted", photo_url := none, order := 2 }],
    is_complete := false, submitted_at := none, important_notes := none,
    updated_at := 0 }

/-- A checklist with acceptable entries for all three required categories. -/
def c4_valid_checklist : ExitChecklist :=
  { id := "cl3", user_id := "u1", user_name := "Alice", booking_id := "b1",
    photos := [{ photo_type := PhotoType.refrigerator,
                 notes := "clean and tidy", photo_url := none, order := 1 },
               { photo_type := PhotoType.freezer,
                 notes := "fully defrosted", photo_url := none, order := 2 },
               { photo_type := PhotoType.closet,
                 notes := "doors closed", photo_url := none, order := 3 }],
    is_complete := false, submitted_at := none, important_notes := none,
    updated_at := 0 }

/-- Witness for C4 at three concrete checklists: a short refrigerator note,
a missing closet category, and a fully valid checklist. -/
theorem exit_checklist_validate_spec_witness :
    (PhotoType.refrigerator ≠ PhotoType.general ∧
      ∃ e ∈ c4_short_checklist.photos,
        e.photo_type = PhotoType.refrigerator ∧ strip_len e.notes < 5)
    ∧ (PhotoType.closet ∈ REQUIRED_CATEGORIES ∧
      ∀ e ∈ c4_missing_checklist.photos, e.photo_type ≠ PhotoType.closet)
    ∧ (c4_valid_checklist.photos = [] ∨
      ((∀ cat ∈ REQUIRED_CATEGORIES, ∃ e ∈ c4_valid_checklist.photos,
          e.photo_type = cat) ∧
       ∀ e ∈ c4_valid_checklist.photos, e.photo_type ≠ PhotoType.general →
         5 ≤ strip_len e.notes)) :=
  ⟨(exit_checklist_validate_spec c4_short_checklist).2.1
      PhotoType.refrigerator rfl,
   (exit_checklist_validate_spec c4_missing_checklist).2.2
      PhotoType.closet rfl,
   (exit_checklist_validate_spec c4_valid_checklist).1.mp rfl⟩

/-- C10: submitting a checklist with zero entries succeeds — validation
treats the empty entry list as valid, so `submit` raises nothing, sets the
completion flag, and stamps the submission timestamp. -/
theorem submit_empty_checklist_sets_complete (c : ExitChecklist) (now : Nat)
    (h : c.photos = []) :
    c.submit now = .ok { c with is_complete := true,
                                submitted_at := some now,
                                updated_at := now } := by
  simp [ExitChecklist.submit, ExitChecklist.validate, h]

/-- A freshly created checklist with no entries. -/
def c10_checklist : ExitChecklist :=
  { id := "cl0", user_id := "u1", user_name := "Alice", booking_id := "b1",
    photos := [], is_complete := false, submitted_at := none,
    important_notes := none, updated_at := 0 }

/-- Witness for C10 at a concrete zero-entry checklist. -/
theorem submit_empty_checklist_sets_complete_witness :
    c10_checklist.photos = [] ∧
    c10_checklist.submit 7 = .ok { c10_checklist with
                                   is_complete := true,
                                   submitted_at := some 7,
                                   updated_at := 7 } :=
  ⟨rfl, submit_empty_checklist_sets_complete c10_checklist 7 rfl⟩

/-- The per-document effect of `BookingRepository.cancel_booking`
(repositories/booking_repository.py lines 104-118): the Firestore update
sets `is_cancelled = True` and stamps `updated_at` on the matching
document and touches nothing else. -/
def cancel_update (now : Nat) (booking_id : String) (b : Booking) : Booking :=
  if b.id == booking_id then
    { b with is_cancelled := true, updated_at := now }
  else b

/-- Embedding of `BookingRepository.cancel_booking`: applies the
`{is_cancelled: True, updated_at: now}` update to the document with the
given id.  `none` embeds the Firestore not-found exception raised by
`doc_ref.update` when no such document exists. -/
def BookingRepository.cancel_booking (now : Nat) (store : List Booking)
    (booking_id : String) : Option (List Booking) :=
  if store.any (fun b => b.id == booking_id) then
    some (store.map (cancel_update now booking_id))
  else
    none

/-- Embedding of `BookingRepository.get_booking_by_id` /
`BaseRepository.get_by_id`: the document with the given id, or `None`. -/
def BookingRepository.get_booking_by_id (store : List Booking)
    (booking_id : String) : Option Booking :=
  store.find? (fun b => b.id == booking_id)

/-- Embedding of `BookingService.cancel_booking`
(services/booking_service.py lines 149-162): runs the repository cancel and,
on success, re-reads and returns the booking. -/
def BookingService.cancel_booking (now : Nat) (store : List Booking)
    (booking_id : String) : Option (List Booking × Option Booking) :=
  match BookingRepository.cancel_booking now store booking_id with
  | none => none
  | some store2 =>
      some (store2, BookingRepository.get_booking_by_id store2 booking_id)

/-- Looking up an id after the cancel update finds the updated document. -/
lemma find_cancel_map (l : List Booking) (i : String) (now : Nat) :
    (l.map (cancel_update now i)).find? (fun b => b.id == i)
      = (l.find? (fun b => b.id == i)).map
          (fun b => { b with is_cancelled := true, updated_at := now }) := by
  induction l with
  | nil => rfl
  | cons a rest ih =>
    cases ha : (a.id == i) with
    | true => simp [cancel_update, List.find?_cons, ha]
    | false => simp [cancel_update, List.find?_cons, ha, ih]

/-- The cancel update preserves which ids are present. -/
lemma any_cancel_map (l : List Booking) (i : String) (now : Nat) :
    (l.map (cancel_update now i)).any (fun b => b.id == i)
      = l.any (fun b => b.id == i) := by
  induction l with
  | nil => rfl
  | cons a rest ih =>
    cases ha : (a.id == i) with
    | true => simp [cancel_update, List.any_cons, ha]
    | false => simp [cancel_update, List.any_cons, ha, ih]

/-- Applying the cancel update twice equals applying it once at the later
timestamp. -/
lemma map_cancel_twice (l : List Booking) (i : String) (now1 now2 : Nat) :
    (l.map (cancel_update now1 i)).map (cancel_update now2 i)
      = l.map (cancel_update now2 i) := by
  rw [List.map_map]
  apply List.map_congr_left
  intro b _
  by_cases hb : (b.id == i) = true
  · simp [cancel_update, hb]
  · simp [cancel_update, hb]

/-- C8: cancelling an already-cancelled reservation is a no-op, not an
error: the service call succeeds and returns the reservation still
cancelled with only its `updated_at` restamped, and cancelling twice (at
timestamps `now1` then `now2`) leaves the store exactly as cancelling once
(at `now2`) does. -/
theorem cancel_booking_idempotent (now1 now2 : Nat) (store : List Booking)
    (booking_id : String) (b : Booking)
    (h : BookingRepository.get_booking_by_id store booking_id = some b)
    (hc : b.is_cancelled = true) :
    (∃ store2 b', BookingService.cancel_booking now2 store booking_id =
        some (store2, some b') ∧ b'.is_cancelled = true ∧
        b' = { b with updated_at := now2 })
    ∧ ((BookingRepository.cancel_booking now1 store booking_id).bind
        (fun s2 => BookingRepository.cancel_booking now2 s2 booking_id)
      = BookingRepository.cancel_booking now2 store booking_id) := by
  have h' : store.find? (fun x => x.id == booking_id) = some b := h
  have hmem : b ∈ store := List.mem_of_find?_eq_some h'
  have hid : (b.id == booking_id) = true := by simpa using List.find?_some h'
  have hany : store.any (fun x => x.id == booking_id) = true :=
    List.any_eq_true.mpr ⟨b, hmem, hid⟩
  constructor
  · refine ⟨store.map (cancel_update now2 booking_id),
      { b with is_cancelled := true, updated_at := now2 }, ?_, rfl, ?_⟩
    · have hrepo : BookingRepository.cancel_booking now2 store booking_id
          = some (store.map (cancel_update now2 booking_id)) := by
        rw [BookingRepository.cancel_booking, if_pos hany]
      have hget : BookingRepository.get_booking_by_id
            (store.map (cancel_update now2 booking_id)) booking_id
          = some { b with is_cancelled := true, updated_at := now2 } := by
        rw [BookingRepository.get_booking_by_id, find_cancel_map, h']
        rfl
      simp only [BookingService.cancel_booking, hrepo, hget]
    · cases b
      simp_all
  · rw [BookingRepository.cancel_booking, if_pos hany]
    show BookingRepository.cancel_booking now2 _ booking_id = _
    rw [BookingRepository.cancel_booking, any_cancel_map,
      BookingRepository.cancel_booking, if_pos hany, if_pos hany,
      map_cancel_twice]

/-- A booking already stored as cancelled. -/
def c8_booking : Booking :=
  { id := "bk1", user_id := "u1", user_name := "Alice", start_date := 10,
    end_date := 12, notes := "", is_cancelled := true,
    exit_checklist_completed := false, exit_checklist_id := none,
    reminder_sent := false, updated_at := 3 }

/-- A store holding only the cancelled booking. -/
def c8_store : List Booking := [c8_booking]

/-- Witness for C8 at a concrete cancelled booking. -/
theorem cancel_booking_idempotent_witness :
    (∃ store2 b', BookingService.cancel_booking 9 c8_store "bk1" =
        some (store2, some b') ∧ b'.is_cancelled = true ∧
        b' = { c8_booking with updated_at := 9 })
    ∧ ((BookingRepository.cancel_booking 5 c8_store "bk1").bind
        (fun s2 => BookingRepository.cancel_booking 9 s2 "bk1")
      = BookingRepository.cancel_booking 9 c8_store "bk1") :=
  cancel_booking_idempotent 5 9 c8_store "bk1" c8_booking rfl rfl

/-- C9: cancellation is a soft flag: after `cancel_booking`, the booking is
still retrievable by id, its `is_cancelled` flag is set and `updated_at`
restamped, and its owner, owner name, date span, notes,
checklist-completion fields and reminder flag are all unchanged. -/
theorem cancel_booking_soft_frame (now : Nat) (store : List Booking)
    (booking_id : String) (b : Booking)
    (h : BookingRepository.get_booking_by_id store booking_id = some b) :
    ∃ store2 b', BookingRepository.cancel_booking now store booking_id =
        some store2 ∧
      BookingRepository.get_booking_by_id store2 booking_id = some b' ∧
      b'.is_cancelled = true ∧ b'.updated_at = now ∧
      b'.id = b.id ∧ b'.user_id = b.user_id ∧ b'.user_name = b.user_name ∧
      b'.start_date = b.start_date ∧ b'.end_date = b.end_date ∧
      b'.notes = b.notes ∧
      b'.exit_checklist_completed = b.exit_checklist_completed ∧
      b'.exit_checklist_id = b.exit_checklist_id ∧
      b'.reminder_sent = b.reminder_sent := by
  have h' : store.find? (fun x => x.id == booking_id) = some b := h
  have hmem : b ∈ store := List.mem_of_find?_eq_some h'
  have hid : (b.id == booking_id) = true := by simpa using List.find?_some h'
  have hany : store.any (fun x => x.id == booking_id) = true :=
    List.any_eq_true.mpr ⟨b, hmem, hid⟩
  refine ⟨store.map (cancel_update now booking_id),
    { b with is_cancelled := true, updated_at := now }, ?_, ?_,
    rfl, rfl, rfl, rfl, rfl, rfl, rfl, rfl, rfl, rfl, rfl⟩
  · rw [BookingRepository.cancel_booking, if_pos hany]
  · rw [BookingRepository.get_booking_by_id, find_cancel_map, h']
    rfl

/-- An active (non-cancelled) booking. -/
def c9_booking : Booking :=
  { id := "bk2", user_id := "u2", user_name := "Bob", start_date := 20,
    end_date := 23, notes := "family trip", is_cancelled := false,
    exit_checklist_completed := false, exit_checklist_id := none,
    reminder_sent := false, updated_at := 4 }

/-- A store holding only the active booking. -/
def c9_store : List Booking := [c9_booking]

/-- Witness for C9 at a concrete active booking. -/
theorem cancel_booking_soft_frame_witness :
    ∃ store2 b', BookingRepository.cancel_booking 8 c9_store "bk2" =
        some store2 ∧
      BookingRepository.get_booking_by_id store2 "bk2" = some b' ∧
      b'.is_cancelled = true ∧ b'.updated_at = 8 ∧
      b'.id = c9_booking.id ∧ b'.user_id = c9_booking.user_id ∧
      b'.user_name = c9_booking.user_name ∧
      b'.start_date = c9_booking.start_date ∧
      b'.end_date = c9_booking.end_date ∧
      b'.notes = c9_booking.notes ∧
      b'.exit_checklist_completed = c9_booking.exit_checklist_completed ∧
      b'.exit_checklist_id = c9_booking.exit_checklist_id ∧
      b'.reminder_sent = c9_booking.reminder_sent :=
  cancel_booking_soft_frame 8 c9_store "bk2" c9_booking rfl

/-- A raw reservation document as streamed from the store during the
reminder scan read (`BookingRepository.get_bookings`).  The date fields
hold the result of attempting `date.fromisoformat` on the stored strings:
`none` embeds a stored value the parser rejects (ValueError).  Fields the
scan never consults (owner name, notes, checklist id, ...) are omitted. -/
structure StoredBooking where
  id : String
  user_id : String
  start_date : Option Nat
  end_date : Option Nat
  is_cancelled : Bool
  exit_checklist_completed : Bool
deriving DecidableEq, Repr

/-- A parsed booking as `Booking.from_dict` hands it to the scan: its date
fields are `datetime.date` values (embedded as `Nat`). -/
structure ScanBooking where
  id : String
  user_id : String
  start_date : Nat
  end_date : Nat
  is_cancelled : Bool
  exit_checklist_completed : Bool
deriving DecidableEq, Repr

/-- Embedding of the date parsing of `Booking.from_dict`
(models/booking.py lines 52-70) as run per document by
`BookingRepository.get_bookings`: both stored date strings must parse,
else `date.fromisoformat` raises ValueError. -/
def from_dict_scan (r : StoredBooking) : Option ScanBooking :=
  match r.start_date, r.end_date with
  | some s, some e =>
      some { id := r.id, user_id := r.user_id, start_date := s,
             end_date := e, is_cancelled := r.is_cancelled,
             exit_checklist_completed := r.exit_checklist_completed }
  | _, _ => none

/-- Embedding of `BookingRepository.get_bookings` as the scan uses it
(booking_repository.py lines 55-76): every streamed document is run
through `Booking.from_dict`; a ValueError on any document propagates out
of the read, so no booking list is returned at all (`none`). -/
def get_bookings_scan : List StoredBooking → Option (List ScanBooking)
  | [] => some []
  | r :: rest =>
    match from_dict_scan r with
    | none => none
    | some b => (get_bookings_scan rest).map (fun bs => b :: bs)

/-- The reminder events a scan can emit: an exit reminder for a booking
ending today, or the logged advance notice for a booking ending
tomorrow. -/
inductive ReminderEvent where
  | exitReminder (user_id booking_id : String)
  | advanceNotice (user_id booking_id : String)
deriving DecidableEq, Repr

/-- Embedding of the per-record end-date parse of the scan loop
(scheduler_service.py lines 74-78): `datetime.fromisoformat` requires a
`str`, but `booking.end_date` is the `datetime.date` produced by
`Booking.from_dict`, so the call raises `TypeError` — which the
`except ValueError:` handler does not catch.  The parse never yields a
date. -/
def scan_parse_end_date (_end_date : Nat) : Option Nat := none

/-- Embedding of `SchedulerService._check_exit_reminders`
(services/scheduler_service.py lines 60-89) over the parsed booking list.
Cancelled bookings are skipped; for a non-cancelled booking the end-date
parse raises (see `scan_parse_end_date`), no per-record handler catches
it, and the function-level `try/except` logs and returns — the scan stops
there with only the events already emitted. -/
def check_exit_reminders (today : Nat) : List ScanBooking → List ReminderEvent
  | [] => []
  | b :: rest =>
    if b.is_cancelled then check_exit_reminders today rest
    else
      match scan_parse_end_date b.end_date with
      | none => []
      | some d =>
          if d = today ∧ b.exit_checklist_completed = false then
            ReminderEvent.exitReminder b.user_id b.id ::
              check_exit_reminders today rest
          else if d = today + 1 ∧ b.exit_checklist_completed = false then
            ReminderEvent.advanceNotice b.user_id b.id ::
              check_exit_reminders today rest
          else
            check_exit_reminders today rest

/-- The whole scan: read all bookings, then run the reminder loop.  A
ValueError from the read reaches the scan-level handler, which logs and
returns with no reminder emitted. -/
def scan_for_reminders (today : Nat) (stored : List StoredBooking) :
    List ReminderEvent :=
  match get_bookings_scan stored with
  | none => []
  | some bookings => check_exit_reminders today bookings

/-- The reminder loop emits nothing: every non-cancelled record crashes
the loop at its end-date parse before any event for it is emitted. -/
lemma check_exit_reminders_eq_nil (today : Nat) (l : List ScanBooking) :
    check_exit_reminders today l = [] := by
  induction l with
  | nil => rfl
  | cons b rest ih =>
      rw [check_exit_reminders]
      by_cases hb : b.is_cancelled = true
      · rw [if_pos hb]; exact ih
      · rw [if_neg hb]
        rfl

/-- C6 (code bug evidence): the reminder scan never emits any reminder,
for any store contents and any current day — a malformed stored date
aborts the read before the loop even starts, and with well-formed records
the loop crashes at the first non-cancelled booking, so no reservation
after a failure point is ever examined and no due reservation is ever
reminded. -/
theorem scan_never_emits_reminders (today : Nat)
    (stored : List StoredBooking) :
    scan_for_reminders today stored = [] := by
  cases h : get_bookings_scan stored with
  | none => simp [scan_for_reminders, h]
  | some bookings =>
      simp [scan_for_reminders, h, check_exit_reminders_eq_nil]

/-- The errors `BookingService.create_booking` can raise on its date and
conflict checks (services/booking_service.py lines 54-92): the three
`ValueError` messages, the `ConflictError` (whose payload would be the
(owner name, start, end) details of lines 84-87), and the generic
`Exception("Failed to check booking availability")` that the
`except Exception` handler at lines 90-92 substitutes for the repository
`TypeError`. -/
inductive CreateBookingError where
  | invalidRange
  | pastDate
  | rangeTooLong
  | conflict (details : List (String × Nat × Nat))
  | availabilityCheckFailed
deriving DecidableEq, Repr

/-- Embedding of the validation and conflict-check prefix of
`BookingService.create_booking` (lines 54-92): the three date checks in
source order, then the conflict check.  The service passes the dates to
the repository as `isoformat()` strings (embedded as `toString`; the
repository raises before consulting them).  A repository `TypeError` is
re-raised as the generic availability failure; the `ConflictError` branch
assembles the (owner, start, end) details exactly as lines 84-87 do, but
it requires a non-empty returned conflict list, which the repository
never produces. -/
def create_booking_check (today start_date end_date : Nat)
    (store : List Booking) : Except CreateBookingError Unit :=
  if start_date ≥ end_date then .error .invalidRange
  else if start_date < today then .error .pastDate
  else if end_date - start_date > 30 then .error .rangeTooLong
  else
    match get_conflicting_bookings store (toString start_date)
        (toString end_date) none with
    | .error .typeError => .error .availabilityCheckFailed
    | .ok [] => .ok ()
    | .ok conflicts =>
        .error (.conflict (conflicts.map
          (fun b => (b.user_name, b.start_date, b.end_date))))

/-- An existing booking by Alice spanning days 10-12. -/
def c7_alice : Booking :=
  { id := "bkA", user_id := "uA", user_name := "Alice", start_date := 10,
    end_date := 12, notes := "", is_cancelled := false,
    exit_checklist_completed := false, exit_checklist_id := none,
    reminder_sent := false, updated_at := 0 }

/-- An existing booking by Bob spanning days 11-13. -/
def c7_bob : Booking :=
  { id := "bkB", user_id := "uB", user_name := "Bob", start_date := 11,
    end_date := 13, notes := "", is_cancelled := false,
    exit_checklist_completed := false, exit_checklist_id := none,
    reminder_sent := false, updated_at := 0 }

/-- C7 counterexample: with two non-cancelled reservations both
intersecting a date-valid candidate range, creation is rejected — but
with the generic availability failure, not with a `ConflictError` naming
the intersecting reservations sorted by start date as the claim states. -/
theorem create_booking_rejects_without_naming_conflicts :
    create_booking_check 5 10 13 [c7_bob, c7_alice] =
      .error .availabilityCheckFailed
    ∧ create_booking_check 5 10 13 [c7_bob, c7_alice] ≠
      .error (.conflict [("Alice", 10, 12), ("Bob", 11, 13)]) := by
  refine ⟨rfl, ?_⟩
  have hval : create_booking_check 5 10 13 [c7_bob, c7_alice] =
      .error .availabilityCheckFailed := rfl
  rw [hval]
  simp

/-- C7 amended: on a date-valid candidate range, creation is rejected with
the generic "Failed to check booking availability" error iff the store
holds any non-cancelled reservation (whether or not it intersects the
range); it proceeds iff every stored reservation is cancelled; and a
`ConflictError` naming reservations is never raised, so no owner/span
listing — sorted or otherwise — ever occurs. -/
theorem create_booking_conflict_check_spec (today qs qe : Nat)
    (store : List Booking)
    (h1 : qs < qe) (h2 : today ≤ qs) (h3 : qe - qs ≤ 30) :
    (create_booking_check today qs qe store =
        .error .availabilityCheckFailed ↔
      ∃ x ∈ store, x.is_cancelled = false)
    ∧ (create_booking_check today qs qe store = .ok () ↔
      ∀ x ∈ store, x.is_cancelled = true)
    ∧ ∀ details, create_booking_check today qs qe store ≠
        .error (.conflict details) := by
  have key : get_conflicting_bookings store (toString qs)
      (toString qe) none =
      (if store.filter (fun x => !x.is_cancelled) = [] then .ok []
       else .error .typeError) := rfl
  by_cases hq : store.filter (fun x => !x.is_cancelled) = []
  · have hval : create_booking_check today qs qe store = .ok () := by
      rw [create_booking_check, if_neg (by omega), if_neg (by omega),
        if_neg (by omega), key, if_pos hq]
    rw [hval]
    refine ⟨?_, ?_, ?_⟩
    · constructor
      · intro h; exact absurd h (by simp)
      · rintro ⟨x, hx, hxc⟩
        have hmem : x ∈ store.filter (fun y => !y.is_cancelled) :=
          List.mem_filter.mpr ⟨hx, by simp [hxc]⟩
        rw [hq] at hmem
        exact absurd hmem (List.not_mem_nil x)
    · constructor
      · intro _ x hx
        cases hbc : x.is_cancelled with
        | true => rfl
        | false =>
            have hmem : x ∈ store.filter (fun y => !y.is_cancelled) :=
              List.mem_filter.mpr ⟨hx, by simp [hbc]⟩
            rw [hq] at hmem
            exact absurd hmem (List.not_mem_nil x)
      · intro _; rfl
    · intro details h; exact absurd h (by simp)
  · have hval : create_booking_check today qs qe store =
        .error .availabilityCheckFailed := by
      rw [create_booking_check, if_neg (by omega), if_neg (by omega),
        if_neg (by omega), key, if_neg hq]
    rw [hval]
    obtain ⟨x, hx⟩ := List.exists_mem_of_ne_nil _ hq
    have hx' := List.mem_filter.mp hx
    refine ⟨?_, ?_, ?_⟩
    · constructor
      · intro _
        exact ⟨x, hx'.1, by simpa using hx'.2⟩
      · intro _; rfl
    · constructor
      · intro h; exact absurd h (by simp)
      · intro hall
        have h1x := hall x hx'.1
        have h2x := hx'.2
        rw [h1x] at h2x
        simp at h2x
    · intro details h; exact absurd h (by simp)

/-- Witness for the amended C7 theorem at a concrete date-valid request
against a store holding two non-cancelled reservations. -/
theorem create_booking_conflict_check_spec_witness :
    (create_booking_check 5 10 13 [c7_bob, c7_alice] =
        .error .availabilityCheckFailed ↔
      ∃ x ∈ [c7_bob, c7_alice], x.is_cancelled = false)
    ∧ (create_booking_check 5 10 13 [c7_bob, c7_alice] = .ok () ↔
      ∀ x ∈ [c7_bob, c7_alice], x.is_cancelled = true)
    ∧ ∀ details, create_booking_check 5 10 13 [c7_bob, c7_alice] ≠
        .error (.conflict details) :=
  create_booking_conflict_check_spec 5 10 13 [c7_bob, c7_alice]
    (by decide) (by decide) (by decide)

/-- Witness for C2: a valid concrete range passes validation. -/
theorem validate_date_range_spec_witness :
    validate_date_range 5 10 13 30 = .ok true :=
  (validate_date_range_spec 5 10 13 30).1.mpr (by decide)

/-- Witness for C3: the bound device is authorized for a concrete user. -/
theorem verify_device_authorizes_iff_witness :
    verify_device c5_user "dev-old" = true :=
  (verify_device_authorizes_iff c5_user "dev-old").2.mpr
    (Or.inr ⟨c5_old_device, rfl, rfl⟩)
